import Mathlib

/-!
Verification of the movement, collision and state-machine core of a
maze-chase arcade game (Pac-Man style), shallowly embedded from its C++
sources (`maze.cpp`, `entities.cpp`, `game.cpp`).

Modelling conventions:
* C++ `double` values are modelled as exact rationals (`ℚ`); all the
  constants involved (40, 120, 4, 20, 15, 1.5, ...) are exactly
  representable, and the comparisons the claims are about are preserved.
* `static_cast<int>` on a floating value truncates toward zero; this is
  `truncToInt` below (distinct from `Int.floor` on negatives).
* Euclidean distance comparisons `sqrt(dx*dx+dy*dy) <= c` (with `c >= 0`)
  are modelled square-free as `dx^2 + dy^2 <= c^2`, which is equivalent.
* Stateful member functions become pure functions from the receiver
  structure to an updated structure; virtual `get_current_speed` is passed
  as an explicit `speed` argument to the shared `Entity` movement code.
-/

namespace PacMan

/-- Movement directions (`direction.h`). -/
inductive direction_t
  | DIR_NONE
  | DIR_LEFT
  | DIR_RIGHT
  | DIR_UP
  | DIR_DOWN
deriving DecidableEq, Repr

open direction_t

/-- Embeds `MazeConfig::MAZE_ROWS`. -/
def MAZE_ROWS : Int := 13

/-- Embeds `MazeConfig::MAZE_COLS`. -/
def MAZE_COLS : Int := 25

/-- Embeds `MazeConfig::CELL_SIZE` (pixels). -/
def CELL_SIZE : ℚ := 40

/-- Embeds `MazeConfig::SPEED` (pixels per second). -/
def SPEED : ℚ := 120

/-- Embeds `MazeConfig::PACMAN_RADIUS_OFFSET`. -/
def PACMAN_RADIUS_OFFSET : ℚ := 2

/-- Embeds `MazeConfig::ALIGNMENT_TOLERANCE` (pixels). -/
def ALIGNMENT_TOLERANCE : ℚ := 4

/-- Embeds `MazeConfig::COLLECTION_DISTANCE` (pixels). -/
def COLLECTION_DISTANCE : ℚ := 15

/-- Embeds `MazeConfig::TOKEN_POINTS`. -/
def TOKEN_POINTS : Int := 10

/-- Embeds `GameConfig::COLLISION_DISTANCE` (pixels). -/
def COLLISION_DISTANCE : ℚ := 20

/-- Embeds `Ghost::SCARED_DURATION` (seconds). -/
def SCARED_DURATION : ℚ := 15

/-- Embeds `Ghost::WARNING_TIME` (seconds). -/
def WARNING_TIME : ℚ := 3

/-- Truncation toward zero, the semantics of C++ `static_cast<int>` on a
floating-point value. -/
def truncToInt (q : ℚ) : Int :=
  if 0 ≤ q then ⌊q⌋ else -⌊-q⌋

/-- C `fmod a b` for the operand signs that occur here: `a - b * trunc (a/b)`. -/
def qfmod (a b : ℚ) : ℚ := a - b * (truncToInt (a / b) : ℚ)

/-- Squared Euclidean distance; `sqrt` is eliminated by comparing squares. -/
def dist_sq (x1 y1 x2 y2 : ℚ) : ℚ := (x1 - x2) ^ 2 + (y1 - y2) ^ 2

/-- The maze grid (`Maze::maze_layout_`): row-major cells, 0 = open, 1 = wall.
The loader guarantees 13 rows of 25 columns (or the hardcoded fallback). -/
structure Maze where
  layout : List (List Nat)
deriving DecidableEq, Repr

/-- Embeds `maze_layout_[row][col]` (only reached behind the bounds guard, like the
C++ indexing; the out-of-range default is never observable). -/
def Maze.cellAt (m : Maze) (row col : Int) : Nat :=
  (m.layout.getD row.toNat []).getD col.toNat 1

/-- Embeds `Maze::is_valid_position`. -/
def Maze.is_valid_position (m : Maze) (row col : Int) : Bool :=
  decide (0 ≤ row) && decide (row < MAZE_ROWS) && decide (0 ≤ col) && decide (col < MAZE_COLS)

/-- Embeds `Maze::is_empty`: in-bounds and an open cell; out-of-bounds reads as wall. -/
def Maze.is_empty (m : Maze) (row col : Int) : Bool :=
  m.is_valid_position row col && m.cellAt row col == 0

/-- Embeds `Maze::is_empty_or_tunnel`: on the tunnel row (6), columns outside the
grid are treated as open; otherwise same as `is_empty`. -/
def Maze.is_empty_or_tunnel (m : Maze) (row col : Int) : Bool :=
  if row == 6 && (decide (col < 0) || decide (MAZE_COLS ≤ col)) then true
  else m.is_empty row col

/-- Embeds `Maze::can_move_to`: four-corner footprint test of a square of
half-width `CELL_SIZE/2 - PACMAN_RADIUS_OFFSET` centred at `(x, y)`. -/
def Maze.can_move_to (m : Maze) (x y : ℚ) : Bool :=
  let radius : ℚ := CELL_SIZE / 2 - PACMAN_RADIUS_OFFSET
  let left_col := truncToInt ((x - radius) / CELL_SIZE)
  let right_col := truncToInt ((x + radius) / CELL_SIZE)
  let top_row := truncToInt ((y - radius) / CELL_SIZE)
  let bottom_row := truncToInt ((y + radius) / CELL_SIZE)
  m.is_empty_or_tunnel top_row left_col && m.is_empty_or_tunnel top_row right_col &&
    m.is_empty_or_tunnel bottom_row left_col && m.is_empty_or_tunnel bottom_row right_col

/-- Embeds `Maze::get_cell_center_x`. -/
def get_cell_center_x (col : Int) : ℚ := (col : ℚ) * CELL_SIZE + CELL_SIZE / 2

/-- Embeds `Maze::get_cell_center_y`. -/
def get_cell_center_y (row : Int) : ℚ := (row : ℚ) * CELL_SIZE + CELL_SIZE / 2

/-- The hardcoded fallback layout from the `Maze` constructor in `maze.cpp`. -/
def fallback_maze : Maze :=
  ⟨[[1, 1, 1, 1, 1, 1, 1, 1, 1, 1, 1, 1, 1, 1, 1, 1, 1, 1, 1, 1, 1, 1, 1, 1, 1],
    [1, 0, 0, 0, 0, 0, 0, 0, 0, 0, 0, 0, 1, 0, 0, 0, 0, 0, 0, 0, 0, 0, 0, 0, 1],
    [1, 0, 1, 1, 0, 1, 1, 1, 0, 1, 1, 0, 1, 0, 1, 1, 0, 1, 1, 1, 0, 1, 1, 0, 1],
    [1, 0, 1, 0, 0, 0, 0, 0, 0, 0, 1, 0, 1, 0, 1, 0, 0, 0, 0, 0, 0, 0, 1, 0, 1],
    [1, 0, 0, 0, 1, 0, 1, 0, 1, 0, 0, 0, 1, 0, 0, 0, 1, 0, 1, 0, 1, 0, 0, 0, 1],
    [1, 0, 1, 1, 1, 0, 1, 0, 1, 1, 1, 0, 0, 0, 1, 1, 1, 0, 1, 0, 1, 1, 1, 0, 1],
    [0, 0, 0, 0, 0, 0, 0, 0, 0, 0, 0, 0, 0, 0, 0, 0, 0, 0, 0, 0, 0, 0, 0, 0, 0],
    [1, 0, 1, 1, 1, 0, 1, 0, 1, 1, 1, 0, 0, 0, 1, 1, 1, 0, 1, 0, 1, 1, 1, 0, 1],
    [1, 0, 0, 0, 1, 0, 1, 0, 1, 0, 0, 0, 1, 0, 0, 0, 1, 0, 1, 0, 1, 0, 0, 0, 1],
    [1, 0, 1, 0, 0, 0, 0, 0, 0, 0, 1, 0, 1, 0, 1, 0, 0, 0, 0, 0, 0, 0, 1, 0, 1],
    [1, 0, 1, 1, 0, 1, 1, 1, 0, 1, 1, 0, 1, 0, 1, 1, 0, 1, 1, 1, 0, 1, 1, 0, 1],
    [1, 0, 0, 0, 0, 0, 0, 0, 0, 0, 0, 0, 1, 0, 0, 0, 0, 0, 0, 0, 0, 0, 0, 0, 1],
    [1, 1, 1, 1, 1, 1, 1, 1, 1, 1, 1, 1, 1, 1, 1, 1, 1, 1, 1, 1, 1, 1, 1, 1, 1]]⟩

/-- The mutable state of `Entity` (`entities.h`): continuous pixel position,
current and desired direction, difficulty speed multiplier. -/
structure Entity where
  x : ℚ
  y : ℚ
  dir : direction_t
  desired_dir : direction_t
  speed_multiplier : ℚ
deriving DecidableEq, Repr

/-- Embeds `Entity::get_next_cell`: the adjacent cell in a direction. -/
def get_next_cell (direction : direction_t) (row col : Int) : Int × Int :=
  match direction with
  | DIR_LEFT => (row, col - 1)
  | DIR_RIGHT => (row, col + 1)
  | DIR_UP => (row - 1, col)
  | DIR_DOWN => (row + 1, col)
  | DIR_NONE => (row, col)

/-- Embeds `Entity::is_aligned_for_direction`: perpendicular-axis distance to the
cell centre is below `ALIGNMENT_TOLERANCE`. -/
def Entity.is_aligned_for_direction (e : Entity) (direction : direction_t)
    (center_x center_y : ℚ) : Bool :=
  match direction with
  | DIR_LEFT | DIR_RIGHT => decide (|e.y - center_y| < ALIGNMENT_TOLERANCE)
  | DIR_UP | DIR_DOWN => decide (|e.x - center_x| < ALIGNMENT_TOLERANCE)
  | DIR_NONE => false

/-- Embeds `Entity::align_to_grid`: snap the perpendicular coordinate to the centre. -/
def Entity.align_to_grid (e : Entity) (direction : direction_t)
    (center_x center_y : ℚ) : Entity :=
  match direction with
  | DIR_LEFT | DIR_RIGHT => { e with y := center_y }
  | DIR_UP | DIR_DOWN => { e with x := center_x }
  | DIR_NONE => e

/-- Embeds `Entity::attempt_direction_change`: commit the desired direction only if
aligned on the perpendicular axis and the adjacent target cell is open. -/
def Entity.attempt_direction_change (e : Entity) (m : Maze) (row col : Int)
    (center_x center_y : ℚ) : Entity :=
  let next := get_next_cell e.desired_dir row col
  let aligned := e.is_aligned_for_direction e.desired_dir center_x center_y
  if aligned && m.is_empty next.1 next.2 then
    { e.align_to_grid e.desired_dir center_x center_y with dir := e.desired_dir }
  else e

/-- Embeds `Entity::get_next_position`: the candidate position after moving
`speed * delta_time` pixels along `direction`. -/
def Entity.get_next_position (e : Entity) (direction : direction_t)
    (speed delta_time : ℚ) : ℚ × ℚ :=
  let movement := speed * delta_time
  match direction with
  | DIR_LEFT => (e.x - movement, e.y)
  | DIR_RIGHT => (e.x + movement, e.y)
  | DIR_UP => (e.x, e.y - movement)
  | DIR_DOWN => (e.x, e.y + movement)
  | DIR_NONE => (e.x, e.y)

/-- Embeds `Entity::snap_to_grid_if_close`: opportunistic anti-drift snap on the
perpendicular axis. -/
def Entity.snap_to_grid_if_close (e : Entity) (center_x center_y : ℚ) : Entity :=
  let e1 :=
    if (e.dir = DIR_LEFT ∨ e.dir = DIR_RIGHT) ∧ |e.y - center_y| < ALIGNMENT_TOLERANCE
    then { e with y := center_y } else e
  if (e1.dir = DIR_UP ∨ e1.dir = DIR_DOWN) ∧ |e1.x - center_x| < ALIGNMENT_TOLERANCE
  then { e1 with x := center_x } else e1

/-- Embeds `Entity::attempt_movement`: advance along the current direction if the
footprint test passes; otherwise cancel the move and stop (`dir := NONE`). -/
def Entity.attempt_movement (e : Entity) (m : Maze) (center_x center_y : ℚ)
    (speed delta_time : ℚ) : Entity :=
  if e.dir = DIR_NONE then e
  else
    let test := e.get_next_position e.dir speed delta_time
    if m.can_move_to test.1 test.2 then
      ({ e with x := test.1, y := test.2 }).snap_to_grid_if_close center_x center_y
    else
      { e with dir := DIR_NONE }

/-- Embeds `Entity::move_in_direction`: one movement tick — optional direction
change, then the movement attempt. -/
def Entity.move_in_direction (e : Entity) (m : Maze) (speed delta_time : ℚ) : Entity :=
  let col := truncToInt (e.x / CELL_SIZE)
  let row := truncToInt (e.y / CELL_SIZE)
  let center_x := get_cell_center_x col
  let center_y := get_cell_center_y row
  let e1 :=
    if e.desired_dir ≠ DIR_NONE ∧ e.desired_dir ≠ e.dir
    then e.attempt_direction_change m row col center_x center_y
    else e
  e1.attempt_movement m center_x center_y speed delta_time

/-- Embeds `Entity::update` (the base-class per-tick step). -/
def Entity.update (e : Entity) (m : Maze) (speed delta_time : ℚ) : Entity :=
  e.move_in_direction m speed delta_time

/-- Ghost behaviour states (`entities.h`). -/
inductive GhostState
  | CHASING
  | SCARED
  | CAUGHT
  | COOLDOWN
deriving DecidableEq, Repr

/-- The `Ghost`-specific mutable state (`entities.h`), with the inherited
`Entity` fields flattened in. -/
structure Ghost where
  x : ℚ
  y : ℚ
  dir : direction_t
  desired_dir : direction_t
  speed_multiplier : ℚ
  palette : String
  current_state : GhostState
  scared_timer : ℚ
  scared_duration_actual : ℚ
  flash_timer : ℚ
  cooldown_timer : ℚ
  home_x : ℚ
  home_y : ℚ
  show_score_popup : Bool
  popup_timer : ℚ
  popup_x : ℚ
  popup_y : ℚ
deriving DecidableEq, Repr

/-- Embeds `Ghost::set_scared_mode`: enter SCARED, reset timers, and set the actual
scared duration to `SCARED_DURATION / speed_multiplier_`. -/
def Ghost.set_scared_mode (g : Ghost) : Ghost :=
  { g with current_state := GhostState.SCARED, scared_timer := 0, flash_timer := 0,
           scared_duration_actual := SCARED_DURATION / g.speed_multiplier }

/-- Embeds `Ghost::set_caught_mode`. -/
def Ghost.set_caught_mode (g : Ghost) : Ghost :=
  { g with current_state := GhostState.CAUGHT }

/-- Embeds `Ghost::is_scared`. -/
def Ghost.is_scared (g : Ghost) : Bool := g.current_state == GhostState.SCARED

/-- Embeds `Ghost::is_caught`. -/
def Ghost.is_caught (g : Ghost) : Bool := g.current_state == GhostState.CAUGHT

/-- Embeds `Ghost::can_interact`: false only during COOLDOWN. -/
def Ghost.can_interact (g : Ghost) : Bool := g.current_state != GhostState.COOLDOWN

/-- Embeds `Ghost::get_current_speed`: 1.5x multiplied base speed when CAUGHT,
multiplied base speed otherwise. -/
def Ghost.get_current_speed (g : Ghost) : ℚ :=
  if g.current_state = GhostState.CAUGHT then SPEED * g.speed_multiplier * (3 / 2)
  else SPEED * g.speed_multiplier

/-- Embeds `Ghost::trigger_score_popup`. -/
def Ghost.trigger_score_popup (g : Ghost) (x y : ℚ) : Ghost :=
  { g with show_score_popup := true, popup_timer := 0, popup_x := x, popup_y := y }

/-- The palette-selection logic of `Ghost::draw`: caught/cooldown ghosts use
the caught palette; a SCARED ghost uses the warning palette during the "on"
half of a 0.33 s blink cycle once `SCARED_DURATION - scared_timer_` is at
most `WARNING_TIME`; otherwise the ghost's own palette. -/
def Ghost.draw_palette (g : Ghost) : String :=
  if g.current_state = GhostState.CAUGHT ∨ g.current_state = GhostState.COOLDOWN then
    "BLACK_BLUE_WHITE"
  else if g.current_state = GhostState.SCARED then
    let time_remaining := SCARED_DURATION - g.scared_timer
    if time_remaining ≤ WARNING_TIME then
      if qfmod g.flash_timer (33 / 100) ≥ 167 / 1000 then "RED_WHITE_GREEN"
      else g.palette
    else g.palette
  else g.palette

/-- Embeds `Ghost::move_towards_home` (CAUGHT ghosts, walls ignored). The C++ code
divides by the Euclidean distance to home; since that distance is irrational
in general, it is passed here as `dist`, and the theorems about this function
supply it together with its defining property
`dist * dist = dist_sq home_x home_y x y` and `0 ≤ dist`. -/
def Ghost.move_towards_home (g : Ghost) (dist : ℚ) : Ghost :=
  let dx := g.home_x - g.x
  let dy := g.home_y - g.y
  if dist < 5 then
    { g with x := g.home_x, y := g.home_y,
             current_state := GhostState.COOLDOWN, cooldown_timer := 0 }
  else
    let move_distance := g.get_current_speed / 60
    let move_x := dx / dist * move_distance
    let move_y := dy / dist * move_distance
    let sprite_dir :=
      if |dx| > |dy| then (if dx > 0 then DIR_RIGHT else DIR_LEFT)
      else (if dy > 0 then DIR_DOWN else DIR_UP)
    { g with x := g.x + move_x, y := g.y + move_y,
             dir := sprite_dir, desired_dir := sprite_dir }

/-- Global game modes (`sound_manager.h`). -/
inductive GameMode
  | STARTING
  | NORMAL
  | POWER_MODE
  | GAME_OVER
  | VICTORY
deriving DecidableEq, Repr

/-- The slice of `Game` state read and written by
`Game::handle_ghost_collisions` (`game.cpp`). -/
structure CollisionEnv where
  pacman_x : ℚ
  pacman_y : ℚ
  ghost1 : Ghost
  ghost2 : Ghost
  score : Int
  mode : GameMode
  running : Bool
  game_initialized : Bool
deriving DecidableEq, Repr

/-- One ghost's branch of `Game::handle_ghost_collisions`: returns the
updated ghost, the updated score, and whether the fatal (game-over) branch
was taken. -/
def resolve_one_ghost (px py : ℚ) (g : Ghost) (score : Int) : Ghost × Int × Bool :=
  if dist_sq px py g.x g.y ≤ COLLISION_DISTANCE ^ 2 ∧ g.can_interact = true then
    if g.is_scared = true then
      let g1 := g.set_caught_mode
      (g1.trigger_score_popup g1.x g1.y, score + 400, false)
    else if g.is_caught = false then
      (g, score, true)
    else
      (g, score, false)
  else (g, score, false)

/-- Embeds `Game::handle_ghost_collisions`: ghost1 first; a fatal collision sets the
mode to GAME_OVER, tears the session down (`game_initialized_ = false`) and
returns early, skipping ghost2. The `running_` flag is not touched. -/
def handle_ghost_collisions (s : CollisionEnv) : CollisionEnv :=
  let r1 := resolve_one_ghost s.pacman_x s.pacman_y s.ghost1 s.score
  if r1.2.2 then
    { s with ghost1 := r1.1, score := r1.2.1,
             mode := GameMode.GAME_OVER, game_initialized := false }
  else
    let s1 := { s with ghost1 := r1.1, score := r1.2.1 }
    let r2 := resolve_one_ghost s1.pacman_x s1.pacman_y s1.ghost2 s1.score
    if r2.2.2 then
      { s1 with ghost2 := r2.1, score := r2.2.1,
                mode := GameMode.GAME_OVER, game_initialized := false }
    else
      { s1 with ghost2 := r2.1, score := r2.2.1 }

/-- Embeds `Game::determine_current_game_mode`. -/
def determine_current_game_mode (running all_tokens_collected : Bool)
    (g1 g2 : Ghost) : GameMode :=
  if running = false then GameMode.GAME_OVER
  else if all_tokens_collected = true then GameMode.VICTORY
  else if g1.is_scared = true ∨ g2.is_scared = true then GameMode.POWER_MODE
  else GameMode.NORMAL

/-- The power-pellet reaction in `Game::update` (lines 160-169): when the
power-pellet count snapshot increased since the previous tick (and the
previous snapshot is initialized), every non-caught ghost enters scared mode. -/
def scare_non_caught (g : Ghost) : Ghost :=
  if g.is_caught = false then g.set_scared_mode else g

/-- The guard and effect of the power-pellet block of `Game::update`. -/
def power_pellet_scare_step (previous current : Int) (g1 g2 : Ghost) :
    Ghost × Ghost :=
  if previous ≠ -1 ∧ previous < current then (scare_non_caught g1, scare_non_caught g2)
  else (g1, g2)

/-- A pellet record (`Token` in `maze.h`). -/
structure Token where
  row : Int
  col : Int
  collected : Bool
deriving DecidableEq, Repr

/-- Embeds `Token::get_x`. -/
def Token.x (t : Token) : ℚ := get_cell_center_x t.col

/-- Embeds `Token::get_y`. -/
def Token.y (t : Token) : ℚ := get_cell_center_y t.row

/-- The pellet-related slice of `GameState` (`maze.h`). -/
structure GameState where
  score : Int
  tokens_collected : Int
  total_tokens : Int
  tokens : List Token
  token_just_collected : Bool
deriving DecidableEq, Repr

/-- The `GameState` constructor. -/
def GameState.init : GameState :=
  { score := 0, tokens_collected := 0, total_tokens := 0, tokens := [],
    token_just_collected := false }

/-- Embeds `GameState::add_token`. -/
def GameState.add_token (gs : GameState) (row col : Int) : GameState :=
  { gs with tokens := gs.tokens ++ [{ row := row, col := col, collected := false }],
            total_tokens := gs.total_tokens + 1 }

/-- The per-token guard of `GameState::check_token_collection`: uncollected
and within `COLLECTION_DISTANCE` of the player. -/
def token_collectable (px py : ℚ) (t : Token) : Bool :=
  !t.collected && decide (dist_sq px py t.x t.y ≤ COLLECTION_DISTANCE ^ 2)

/-- The collection loop of `GameState::check_token_collection`: mark every
collectable token, counting how many were newly collected. -/
def collect_pass (px py : ℚ) : List Token → List Token × Nat
  | [] => ([], 0)
  | t :: ts =>
      let rest := collect_pass px py ts
      if token_collectable px py t then
        ({ t with collected := true } :: rest.1, rest.2 + 1)
      else (t :: rest.1, rest.2)

/-- Embeds `GameState::check_token_collection`: collect all pellets in range, add
`TOKEN_POINTS` per pellet, bump the collected count, raise the sound flag;
returns the new state and whether anything was collected. -/
def GameState.check_token_collection (gs : GameState) (px py : ℚ) :
    GameState × Bool :=
  let r := collect_pass px py gs.tokens
  ({ gs with tokens := r.1,
             score := gs.score + TOKEN_POINTS * (r.2 : Int),
             tokens_collected := gs.tokens_collected + (r.2 : Int),
             token_just_collected := gs.token_just_collected || decide (0 < r.2) },
   decide (0 < r.2))

/-- Bookkeeping invariant tying the counters of `GameState` to its token
list: the collected count is the number of collected tokens and the total is
the list length. It holds at construction and is preserved by `add_token`
and `check_token_collection`. -/
def GameState.wf (gs : GameState) : Prop :=
  gs.tokens_collected = ((gs.tokens.filter fun t => t.collected).length : Int) ∧
    gs.total_tokens = (gs.tokens.length : Int)

instance (gs : GameState) : Decidable gs.wf := by
  unfold GameState.wf; infer_instance

/-- A ghost at the home cell centre `(500, 260)` (cell (6, 12)), in its
constructor state, used to instantiate the general theorems. -/
def base_ghost : Ghost :=
  { x := 500, y := 260, dir := DIR_NONE, desired_dir := DIR_NONE, speed_multiplier := 1,
    palette := "RED_BLUE_WHITE", current_state := GhostState.CHASING, scared_timer := 0,
    scared_duration_actual := SCARED_DURATION, flash_timer := 0, cooldown_timer := 0,
    home_x := 500, home_y := 260, show_score_popup := false, popup_timer := 0,
    popup_x := 0, popup_y := 0 }

/-! ## Theorems -/

/-- C4: if the candidate position (current position advanced `speed * dt`
pixels along the current direction) fails the four-corner footprint test
`can_move_to`, the movement step cancels entirely: the resulting entity has
the same position (and all other fields) and its current direction forced to
`DIR_NONE`. -/
theorem C4_blocked_movement_cancels (m : Maze) (e : Entity) (cx cy speed dt : ℚ)
    (hdir : e.dir ≠ DIR_NONE)
    (hblocked : m.can_move_to (e.get_next_position e.dir speed dt).1
        (e.get_next_position e.dir speed dt).2 = false) :
    e.attempt_movement m cx cy speed dt = { e with dir := DIR_NONE } := by
  unfold Entity.attempt_movement
  simp [hdir, hblocked]

/-- C4 witness: an entity one step short of the wall at cell (1, 0) of the
fallback maze, moving left at base speed, is stopped with its position kept. -/
theorem C4_blocked_movement_cancels_witness :
    Entity.attempt_movement ⟨58, 60, DIR_LEFT, DIR_NONE, 1⟩ fallback_maze 60 60 120 (1 / 60)
      = ⟨58, 60, DIR_NONE, DIR_NONE, 1⟩ := by
  exact C4_blocked_movement_cancels fallback_maze ⟨58, 60, DIR_LEFT, DIR_NONE, 1⟩ 60 60 120 (1 / 60)
    (by decide)
    (by norm_num [Entity.get_next_position, Maze.can_move_to, Maze.is_empty_or_tunnel,
      Maze.is_empty, Maze.is_valid_position, Maze.cellAt, truncToInt, CELL_SIZE,
      PACMAN_RADIUS_OFFSET, MAZE_ROWS, MAZE_COLS, fallback_maze])

/-- C5: entering SCARED mode sets the actual scared duration to exactly
`SCARED_DURATION / mult` (base 15 s), so for positive multipliers the scared
duration is strictly decreasing in the speed multiplier. -/
theorem C5_scared_duration_inverse (g1 g2 : Ghost)
    (h1 : 0 < g1.speed_multiplier) (h2 : 0 < g2.speed_multiplier)
    (hlt : g1.speed_multiplier < g2.speed_multiplier) :
    SCARED_DURATION = 15 ∧
    g1.set_scared_mode.scared_duration_actual = SCARED_DURATION / g1.speed_multiplier ∧
    g2.set_scared_mode.scared_duration_actual = SCARED_DURATION / g2.speed_multiplier ∧
    g2.set_scared_mode.scared_duration_actual < g1.set_scared_mode.scared_duration_actual := by
  refine ⟨rfl, rfl, rfl, ?_⟩
  simp only [Ghost.set_scared_mode]
  exact div_lt_div_of_pos_left (by norm_num [SCARED_DURATION]) h1 hlt

/-- C5 witness: multipliers 1 and 2 give scared durations 15 s and 7.5 s. -/
theorem C5_scared_duration_inverse_witness :
    SCARED_DURATION = 15 ∧
    base_ghost.set_scared_mode.scared_duration_actual = SCARED_DURATION / base_ghost.speed_multiplier ∧
    ({ base_ghost with speed_multiplier := 2 : Ghost }).set_scared_mode.scared_duration_actual
      = SCARED_DURATION / ({ base_ghost with speed_multiplier := 2 : Ghost }).speed_multiplier ∧
    ({ base_ghost with speed_multiplier := 2 : Ghost }).set_scared_mode.scared_duration_actual
      < base_ghost.set_scared_mode.scared_duration_actual :=
  C5_scared_duration_inverse base_ghost { base_ghost with speed_multiplier := 2 }
    (by norm_num [base_ghost]) (by norm_num) (by norm_num [base_ghost])

/-- C8: maze cell queries are total over all integer coordinates — any
out-of-bounds `(row, col)` reads as wall (`is_empty` is false), with the
single exception that `is_empty_or_tunnel` reports the tunnel row (6) open
for columns outside `[0, MAZE_COLS)`; everywhere else `is_empty_or_tunnel`
agrees with `is_empty`. -/
theorem C8_total_boundary_queries (m : Maze) (row col : Int) :
    (¬(0 ≤ row ∧ row < MAZE_ROWS ∧ 0 ≤ col ∧ col < MAZE_COLS) →
      m.is_empty row col = false) ∧
    ((col < 0 ∨ MAZE_COLS ≤ col) → m.is_empty_or_tunnel 6 col = true) ∧
    (¬(row = 6 ∧ (col < 0 ∨ MAZE_COLS ≤ col)) →
      m.is_empty_or_tunnel row col = m.is_empty row col) := by
  refine ⟨?_, ?_, ?_⟩
  · intro h
    simp only [Maze.is_empty, Maze.is_valid_position, Bool.and_eq_false_iff,
      decide_eq_false_iff_not]
    tauto
  · intro h
    unfold Maze.is_empty_or_tunnel
    rcases h with h | h <;> simp [h]
  · intro h
    unfold Maze.is_empty_or_tunnel
    by_cases h6 : row = 6
    · subst h6
      have hc : ¬(col < 0 ∨ MAZE_COLS ≤ col) := fun hcol => h ⟨rfl, hcol⟩
      push_neg at hc
      simp [not_lt.mpr hc.1, not_le.mpr hc.2]
    · simp [h6]

/-- C8 witness: on the fallback maze, `is_empty` rejects row -1, while the
tunnel row 6 is open at column 25, and at the in-bounds cell (3, 3) the two
queries agree. -/
theorem C8_total_boundary_queries_witness :
    fallback_maze.is_empty (-1) 0 = false ∧
    fallback_maze.is_empty_or_tunnel 6 25 = true ∧
    fallback_maze.is_empty_or_tunnel 3 3 = fallback_maze.is_empty 3 3 :=
  ⟨(C8_total_boundary_queries fallback_maze (-1) 0).1 (by decide),
   (C8_total_boundary_queries fallback_maze 6 25).2.1 (by decide),
   (C8_total_boundary_queries fallback_maze 3 3).2.2 (by decide)⟩

/-- On a SCARED ghost, `Ghost::draw` picks the palette from the fixed base
`SCARED_DURATION`, not from `scared_duration_actual_`. -/
theorem draw_palette_of_scared (g : Ghost) (hs : g.current_state = GhostState.SCARED) :
    g.draw_palette =
      if SCARED_DURATION - g.scared_timer ≤ WARNING_TIME then
        (if qfmod g.flash_timer (33 / 100) ≥ 167 / 1000 then "RED_WHITE_GREEN" else g.palette)
      else g.palette := by
  unfold Ghost.draw_palette
  rw [hs]
  simp

/-- A multiplier-2 ghost 4.8 s into its (7.5 s) scared window: produced by
`set_scared_mode` at difficulty multiplier 2 followed by 4.8 s of scared
updates (which advance `scared_timer_` and `flash_timer_` in lockstep). -/
def mult2_scared_ghost : Ghost :=
  { base_ghost with
    speed_multiplier := 2
    current_state := GhostState.SCARED
    scared_timer := 24 / 5
    flash_timer := 24 / 5
    scared_duration_actual := 15 / 2 }

/-- C6 counterexample: at speed multiplier 2 the actual scared duration is
7.5 s; 4.8 s in, the remaining actual scared time is 2.7 s ≤ 3 s and the
blink phase is in its "on" half, so the claim requires the warning palette —
but `Ghost::draw` compares against the base 15 s duration (15 - 4.8 = 10.2 s
remaining) and keeps the normal palette. -/
theorem C6_counterexample :
    mult2_scared_ghost.current_state = GhostState.SCARED ∧
    mult2_scared_ghost.scared_duration_actual
      = SCARED_DURATION / mult2_scared_ghost.speed_multiplier ∧
    mult2_scared_ghost.scared_duration_actual - mult2_scared_ghost.scared_timer
      ≤ WARNING_TIME ∧
    qfmod mult2_scared_ghost.flash_timer (33 / 100) ≥ 167 / 1000 ∧
    mult2_scared_ghost.draw_palette ≠ "RED_WHITE_GREEN" := by
  refine ⟨rfl, by norm_num [mult2_scared_ghost, base_ghost, SCARED_DURATION],
    by norm_num [mult2_scared_ghost, base_ghost, SCARED_DURATION, WARNING_TIME],
    by norm_num [mult2_scared_ghost, base_ghost, qfmod, truncToInt], ?_⟩
  rw [draw_palette_of_scared mult2_scared_ghost rfl]
  rw [if_neg (by norm_num [mult2_scared_ghost, base_ghost, SCARED_DURATION, WARNING_TIME])]
  decide

/-- C6 (amended): for a SCARED ghost (whose own palette is not the warning
variant), the drawn palette is the warning variant exactly when
`SCARED_DURATION - scared_timer ≤ 3` — the threshold uses the fixed base
duration of 15 s, not the difficulty-scaled actual duration — and the 0.33 s
blink cycle is in its "on" half (`fmod(flash_timer, 0.33) ≥ 0.167`);
otherwise the normal palette is drawn. Only for multiplier 1 does the
threshold coincide with "actual remaining scared time ≤ 3 s". -/
theorem C6_warning_flash_uses_base_duration (g : Ghost)
    (hs : g.current_state = GhostState.SCARED)
    (hp : g.palette ≠ "RED_WHITE_GREEN") :
    (g.draw_palette = "RED_WHITE_GREEN" ↔
      (SCARED_DURATION - g.scared_timer ≤ WARNING_TIME ∧
        qfmod g.flash_timer (33 / 100) ≥ 167 / 1000)) ∧
    (¬(SCARED_DURATION - g.scared_timer ≤ WARNING_TIME ∧
        qfmod g.flash_timer (33 / 100) ≥ 167 / 1000) → g.draw_palette = g.palette) := by
  rw [draw_palette_of_scared g hs]
  constructor
  · constructor
    · intro h
      split_ifs at h with h1 h2
      · exact ⟨h1, h2⟩
      · exact absurd h hp
      · exact absurd h hp
    · rintro ⟨h1, h2⟩
      simp [h1, h2]
  · intro h
    split_ifs with h1 h2
    · exact absurd ⟨h1, h2⟩ h
    · rfl
    · rfl

/-- C6 amended-claim witness: a multiplier-1 ghost at 12.5 s elapsed
(2.5 s remaining of the base 15 s) in the "on" half of the blink cycle is
drawn with the warning palette. -/
theorem C6_warning_flash_witness :
    (Ghost.draw_palette
        { base_ghost with
          current_state := GhostState.SCARED
          scared_timer := 25 / 2
          flash_timer := 25 / 2 }) = "RED_WHITE_GREEN" :=
  (C6_warning_flash_uses_base_duration
      { base_ghost with
        current_state := GhostState.SCARED
        scared_timer := 25 / 2
        flash_timer := 25 / 2 }
      rfl (by simp [base_ghost])).1.mpr
    (by norm_num [base_ghost, SCARED_DURATION, WARNING_TIME, qfmod, truncToInt])

/-- C9: at difficulty multiplier 2 and base speed 120 px/s, a CHASING or
SCARED ghost's effective speed is exactly 240 px/s, and a CAUGHT ghost's
return-home speed is exactly 360 px/s (1.5x the multiplied base); per
`move_towards_home` update step the CAUGHT ghost's position is displaced by
exactly `speed / 60` pixels toward home (the code's per-frame step at 60 FPS). -/
theorem C9_ghost_speeds (g : Ghost) (d : ℚ) (hm : g.speed_multiplier = 2)
    (hd5 : 5 ≤ d) (hdd : d * d = dist_sq g.home_x g.home_y g.x g.y) :
    SPEED = 120 ∧
    ((g.current_state = GhostState.CHASING ∨ g.current_state = GhostState.SCARED) →
      g.get_current_speed = 240) ∧
    (g.current_state = GhostState.CAUGHT →
      g.get_current_speed = 360 ∧
      g.get_current_speed = (3 / 2) * (SPEED * g.speed_multiplier) ∧
      dist_sq (g.move_towards_home d).x (g.move_towards_home d).y g.x g.y
        = (g.get_current_speed / 60) ^ 2) := by
  have hd0 : d ≠ 0 := by positivity
  refine ⟨rfl, ?_, ?_⟩
  · rintro (h | h) <;> (simp [Ghost.get_current_speed, h, hm, SPEED]; norm_num)
  · intro h
    have hsp : g.get_current_speed = 360 := by
      simp [Ghost.get_current_speed, h, hm, SPEED]
      norm_num
    have h6 : g.get_current_speed / 60 = 6 := by rw [hsp]; norm_num
    refine ⟨hsp, by rw [hsp, hm]; norm_num [SPEED], ?_⟩
    have hn : ¬d < 5 := not_lt.mpr hd5
    have hsq : (g.home_x - g.x) ^ 2 + (g.home_y - g.y) ^ 2 = d * d := by
      rw [hdd]; unfold dist_sq; ring
    simp only [Ghost.move_towards_home, hn, if_false, h6]
    unfold dist_sq
    field_simp
    linear_combination (36 : ℚ) * hsq

/-- A CAUGHT multiplier-2 ghost 400 px left of its home cell. -/
def caught_ghost : Ghost :=
  { base_ghost with
    speed_multiplier := 2
    current_state := GhostState.CAUGHT
    x := 100
    y := 260 }

/-- C9 witness: the caught multiplier-2 ghost moves at 360 px/s, i.e. exactly
6 px toward home in one `move_towards_home` step (distance to home 400 px). -/
theorem C9_ghost_speeds_witness :
    caught_ghost.get_current_speed = 360 ∧
    dist_sq (caught_ghost.move_towards_home 400).x (caught_ghost.move_towards_home 400).y
        caught_ghost.x caught_ghost.y
      = (caught_ghost.get_current_speed / 60) ^ 2 := by
  have h := (C9_ghost_speeds caught_ghost 400 (by norm_num [caught_ghost, base_ghost])
      (by norm_num)
      (by norm_num [caught_ghost, base_ghost, dist_sq])).2.2 rfl
  exact ⟨h.1, h.2.2⟩

/-- C10: on the tick where the power-pellet count snapshot increased (with
the previous snapshot initialized), every ghost that is not CAUGHT —
including ghosts already SCARED and ghosts in COOLDOWN — is put into SCARED
with its scared timer reset to 0 and its vulnerability window restarted at
`SCARED_DURATION / multiplier`; CAUGHT ghosts are left untouched. -/
theorem C10_power_pellets_scare_all (previous current : Int) (g1 g2 : Ghost)
    (hprev : previous ≠ -1) (hinc : previous < current) :
    (g1.current_state ≠ GhostState.CAUGHT →
      (power_pellet_scare_step previous current g1 g2).1.current_state = GhostState.SCARED ∧
      (power_pellet_scare_step previous current g1 g2).1.scared_timer = 0 ∧
      (power_pellet_scare_step previous current g1 g2).1.scared_duration_actual
        = SCARED_DURATION / g1.speed_multiplier) ∧
    (g1.current_state = GhostState.CAUGHT →
      (power_pellet_scare_step previous current g1 g2).1 = g1) ∧
    (g2.current_state ≠ GhostState.CAUGHT →
      (power_pellet_scare_step previous current g1 g2).2.current_state = GhostState.SCARED ∧
      (power_pellet_scare_step previous current g1 g2).2.scared_timer = 0 ∧
      (power_pellet_scare_step previous current g1 g2).2.scared_duration_actual
        = SCARED_DURATION / g2.speed_multiplier) ∧
    (g2.current_state = GhostState.CAUGHT →
      (power_pellet_scare_step previous current g1 g2).2 = g2) := by
  have hnc : ∀ g : Ghost, g.current_state ≠ GhostState.CAUGHT →
      scare_non_caught g = g.set_scared_mode := by
    intro g hg
    unfold scare_non_caught
    rw [if_pos (by simp [Ghost.is_caught, hg])]
  have hc : ∀ g : Ghost, g.current_state = GhostState.CAUGHT →
      scare_non_caught g = g := by
    intro g hg
    unfold scare_non_caught
    rw [if_neg (by simp [Ghost.is_caught, hg])]
  unfold power_pellet_scare_step
  rw [if_pos ⟨hprev, hinc⟩]
  refine ⟨fun h => ?_, fun h => ?_, fun h => ?_, fun h => ?_⟩
  · show (Ghost.current_state (scare_non_caught g1) = _) ∧ _
    rw [hnc g1 h]
    exact ⟨rfl, rfl, rfl⟩
  · show scare_non_caught g1 = g1
    exact hc g1 h
  · show (Ghost.current_state (scare_non_caught g2) = _) ∧ _
    rw [hnc g2 h]
    exact ⟨rfl, rfl, rfl⟩
  · show scare_non_caught g2 = g2
    exact hc g2 h

/-- C10 witness: after a power-pellet count increase (snapshots 0 to 1), a
COOLDOWN ghost becomes SCARED with a fresh 15 s window, while a CAUGHT ghost
is unchanged. -/
theorem C10_power_pellets_scare_all_witness :
    (power_pellet_scare_step 0 1
        { base_ghost with current_state := GhostState.COOLDOWN }
        { base_ghost with current_state := GhostState.CAUGHT }).1.current_state
      = GhostState.SCARED ∧
    (power_pellet_scare_step 0 1
        { base_ghost with current_state := GhostState.COOLDOWN }
        { base_ghost with current_state := GhostState.CAUGHT }).2
      = { base_ghost with current_state := GhostState.CAUGHT } := by
  have h := C10_power_pellets_scare_all 0 1
    { base_ghost with current_state := GhostState.COOLDOWN }
    { base_ghost with current_state := GhostState.CAUGHT }
    (by decide) (by decide)
  exact ⟨(h.1 (by simp)).1, h.2.2.2 rfl⟩

/-- The per-ghost trigger for catching a scared ghost: within the 20 px
collision distance, interactable, and SCARED. -/
def scared_hit (px py : ℚ) (g : Ghost) : Prop :=
  dist_sq px py g.x g.y ≤ COLLISION_DISTANCE ^ 2 ∧ g.can_interact = true ∧
    g.current_state = GhostState.SCARED

/-- The per-ghost trigger for a fatal collision: within the 20 px collision
distance, interactable, and neither SCARED nor CAUGHT. -/
def fatal_hit (px py : ℚ) (g : Ghost) : Prop :=
  dist_sq px py g.x g.y ≤ COLLISION_DISTANCE ^ 2 ∧ g.can_interact = true ∧
    g.current_state ≠ GhostState.SCARED ∧ g.current_state ≠ GhostState.CAUGHT

instance (px py : ℚ) (g : Ghost) : Decidable (scared_hit px py g) := by
  unfold scared_hit; infer_instance

instance (px py : ℚ) (g : Ghost) : Decidable (fatal_hit px py g) := by
  unfold fatal_hit; infer_instance

/-- A scared hit resolves to catching the ghost: CAUGHT, +400, popup at the
ghost's (unchanged) position, no fatal flag. -/
theorem resolve_one_ghost_scared (px py : ℚ) (g : Ghost) (score : Int)
    (h : scared_hit px py g) :
    resolve_one_ghost px py g score
      = (g.set_caught_mode.trigger_score_popup g.x g.y, score + 400, false) := by
  obtain ⟨h1, h2, h3⟩ := h
  unfold resolve_one_ghost
  rw [if_pos ⟨h1, h2⟩, if_pos (by simp [Ghost.is_scared, h3])]
  rfl

/-- A fatal hit resolves to the fatal flag with ghost and score untouched. -/
theorem resolve_one_ghost_fatal (px py : ℚ) (g : Ghost) (score : Int)
    (h : fatal_hit px py g) :
    resolve_one_ghost px py g score = (g, score, true) := by
  obtain ⟨h1, h2, h3, h4⟩ := h
  unfold resolve_one_ghost
  rw [if_pos ⟨h1, h2⟩, if_neg (by simp [Ghost.is_scared, h3]),
    if_pos (by simp [Ghost.is_caught, h4])]

/-- With neither trigger, collision resolution leaves everything untouched. -/
theorem resolve_one_ghost_quiet (px py : ℚ) (g : Ghost) (score : Int)
    (hs : ¬scared_hit px py g) (hf : ¬fatal_hit px py g) :
    resolve_one_ghost px py g score = (g, score, false) := by
  unfold resolve_one_ghost
  by_cases hc : dist_sq px py g.x g.y ≤ COLLISION_DISTANCE ^ 2 ∧ g.can_interact = true
  · rw [if_pos hc]
    have h3 : g.current_state ≠ GhostState.SCARED := fun h => hs ⟨hc.1, hc.2, h⟩
    have h4 : g.current_state = GhostState.CAUGHT := by
      by_contra h4
      exact hf ⟨hc.1, hc.2, h3, h4⟩
    rw [if_neg (by simp [Ghost.is_scared, h3]), if_neg (by simp [Ghost.is_caught, h4])]
  · rw [if_neg hc]

/-- A state with a fatal hit on ghost1 and a simultaneous scared hit on
ghost2: the player touches the CHASING ghost1 at 10 px and the SCARED ghost2
at 10 px on the same tick. -/
def both_hits_env : CollisionEnv :=
  { pacman_x := 100
    pacman_y := 260
    ghost1 := { base_ghost with x := 110, y := 260 }
    ghost2 := { base_ghost with
                x := 90
                y := 260
                current_state := GhostState.SCARED }
    score := 1000
    mode := GameMode.NORMAL
    running := true
    game_initialized := true }

/-- C1 counterexample: on a tick where ghost2 is SCARED, interactable and
within 20 px, but ghost1 simultaneously triggers the fatal branch, collision
resolution returns early: ghost2 is not caught, no 400 points are scored and
no popup is activated — contrary to the claim's universal per-ghost promise. -/
theorem C1_counterexample :
    scared_hit both_hits_env.pacman_x both_hits_env.pacman_y both_hits_env.ghost2 ∧
    (handle_ghost_collisions both_hits_env).ghost2.current_state = GhostState.SCARED ∧
    (handle_ghost_collisions both_hits_env).ghost2.show_score_popup = false ∧
    (handle_ghost_collisions both_hits_env).score = both_hits_env.score := by
  have hf : fatal_hit both_hits_env.pacman_x both_hits_env.pacman_y both_hits_env.ghost1 := by
    refine ⟨by norm_num [both_hits_env, base_ghost, dist_sq, COLLISION_DISTANCE],
      by decide, by decide, by decide⟩
  have hr := resolve_one_ghost_fatal both_hits_env.pacman_x both_hits_env.pacman_y
    both_hits_env.ghost1 both_hits_env.score hf
  refine ⟨⟨by norm_num [both_hits_env, base_ghost, dist_sq, COLLISION_DISTANCE],
    by decide, by decide⟩, ?_, ?_, ?_⟩ <;>
    simp [handle_ghost_collisions, hr] <;> decide

/-- C1 (amended): collision resolution handles ghost1 first and aborts on a
fatal hit, so the claimed effect is unconditional for ghost1 but holds for
ghost2 only when ghost1 does not trigger the fatal branch on the same tick:
each processed scared hit sets that ghost to CAUGHT at its unchanged
(pre-capture) position, activates its score popup there, and adds exactly
400 to the score (800 in total when both ghosts are scared hits at once). -/
theorem C1_scared_hits_processed (s : CollisionEnv) :
    (scared_hit s.pacman_x s.pacman_y s.ghost1 →
      (handle_ghost_collisions s).ghost1.current_state = GhostState.CAUGHT ∧
      (handle_ghost_collisions s).ghost1.x = s.ghost1.x ∧
      (handle_ghost_collisions s).ghost1.y = s.ghost1.y ∧
      (handle_ghost_collisions s).ghost1.show_score_popup = true ∧
      (handle_ghost_collisions s).ghost1.popup_x = s.ghost1.x ∧
      (handle_ghost_collisions s).ghost1.popup_y = s.ghost1.y ∧
      (¬scared_hit s.pacman_x s.pacman_y s.ghost2 →
        (handle_ghost_collisions s).score = s.score + 400)) ∧
    (scared_hit s.pacman_x s.pacman_y s.ghost2 →
      ¬fatal_hit s.pacman_x s.pacman_y s.ghost1 →
      (handle_ghost_collisions s).ghost2.current_state = GhostState.CAUGHT ∧
      (handle_ghost_collisions s).ghost2.x = s.ghost2.x ∧
      (handle_ghost_collisions s).ghost2.y = s.ghost2.y ∧
      (handle_ghost_collisions s).ghost2.show_score_popup = true ∧
      (handle_ghost_collisions s).ghost2.popup_x = s.ghost2.x ∧
      (handle_ghost_collisions s).ghost2.popup_y = s.ghost2.y ∧
      (¬scared_hit s.pacman_x s.pacman_y s.ghost1 →
        (handle_ghost_collisions s).score = s.score + 400)) ∧
    (scared_hit s.pacman_x s.pacman_y s.ghost1 →
      scared_hit s.pacman_x s.pacman_y s.ghost2 →
      (handle_ghost_collisions s).score = s.score + 800) := by
  have hns : ∀ g, scared_hit s.pacman_x s.pacman_y g → ¬fatal_hit s.pacman_x s.pacman_y g :=
    fun g hg hf => hf.2.2.1 hg.2.2
  refine ⟨?_, ?_, ?_⟩
  · intro h1
    have hr1 := resolve_one_ghost_scared s.pacman_x s.pacman_y s.ghost1 s.score h1
    by_cases h2 : scared_hit s.pacman_x s.pacman_y s.ghost2
    · have hr2 := resolve_one_ghost_scared s.pacman_x s.pacman_y s.ghost2 (s.score + 400) h2
      simp [handle_ghost_collisions, hr1, hr2, Ghost.trigger_score_popup, Ghost.set_caught_mode, h2]
    · by_cases hf2 : fatal_hit s.pacman_x s.pacman_y s.ghost2
      · have hr2 := resolve_one_ghost_fatal s.pacman_x s.pacman_y s.ghost2 (s.score + 400) hf2
        simp [handle_ghost_collisions, hr1, hr2, Ghost.trigger_score_popup, Ghost.set_caught_mode]
      · have hr2 := resolve_one_ghost_quiet s.pacman_x s.pacman_y s.ghost2 (s.score + 400) h2 hf2
        simp [handle_ghost_collisions, hr1, hr2, Ghost.trigger_score_popup, Ghost.set_caught_mode]
  · intro h2 hnf1
    by_cases h1 : scared_hit s.pacman_x s.pacman_y s.ghost1
    · have hr1 := resolve_one_ghost_scared s.pacman_x s.pacman_y s.ghost1 s.score h1
      have hr2 := resolve_one_ghost_scared s.pacman_x s.pacman_y s.ghost2 (s.score + 400) h2
      simp [handle_ghost_collisions, hr1, hr2, Ghost.trigger_score_popup, Ghost.set_caught_mode, h1]
    · have hr1 := resolve_one_ghost_quiet s.pacman_x s.pacman_y s.ghost1 s.score h1 hnf1
      have hr2 := resolve_one_ghost_scared s.pacman_x s.pacman_y s.ghost2 s.score h2
      simp [handle_ghost_collisions, hr1, hr2, Ghost.trigger_score_popup, Ghost.set_caught_mode]
  · intro h1 h2
    have hr1 := resolve_one_ghost_scared s.pacman_x s.pacman_y s.ghost1 s.score h1
    have hr2 := resolve_one_ghost_scared s.pacman_x s.pacman_y s.ghost2 (s.score + 400) h2
    simp [handle_ghost_collisions, hr1, hr2]
    ring

/-- A state with a single scared hit on ghost1 and ghost2 far away. -/
def scared_hit_env : CollisionEnv :=
  { pacman_x := 100
    pacman_y := 260
    ghost1 := { base_ghost with
                x := 110
                y := 260
                current_state := GhostState.SCARED }
    ghost2 := { base_ghost with x := 900, y := 60 }
    score := 1000
    mode := GameMode.POWER_MODE
    running := true
    game_initialized := true }

/-- C1 amended-claim witness: the single scared hit is caught with its popup
at the pre-capture position and exactly 400 points are scored. -/
theorem C1_scared_hits_processed_witness :
    (handle_ghost_collisions scared_hit_env).ghost1.current_state = GhostState.CAUGHT ∧
    (handle_ghost_collisions scared_hit_env).ghost1.popup_x = scared_hit_env.ghost1.x ∧
    (handle_ghost_collisions scared_hit_env).ghost1.popup_y = scared_hit_env.ghost1.y ∧
    (handle_ghost_collisions scared_hit_env).ghost1.show_score_popup = true ∧
    (handle_ghost_collisions scared_hit_env).score = scared_hit_env.score + 400 := by
  have hs1 : scared_hit scared_hit_env.pacman_x scared_hit_env.pacman_y scared_hit_env.ghost1 :=
    ⟨by norm_num [scared_hit_env, base_ghost, dist_sq, COLLISION_DISTANCE],
     by decide, by decide⟩
  have hns2 : ¬scared_hit scared_hit_env.pacman_x scared_hit_env.pacman_y scared_hit_env.ghost2 := by
    intro h
    have := h.1
    norm_num [scared_hit_env, base_ghost, dist_sq, COLLISION_DISTANCE] at this
  have h := (C1_scared_hits_processed scared_hit_env).1 hs1
  exact ⟨h.1, h.2.2.2.2.1, h.2.2.2.2.2.1, h.2.2.2.1, h.2.2.2.2.2.2 hns2⟩

/-- C2 counterexample: a fatal collision tick switches the mode to GAME_OVER
but leaves the `running_` flag alone (it stays true); the claim's "`running`
becomes false" does not hold on the code. -/
theorem C2_counterexample :
    fatal_hit both_hits_env.pacman_x both_hits_env.pacman_y both_hits_env.ghost1 ∧
    (handle_ghost_collisions both_hits_env).mode = GameMode.GAME_OVER ∧
    (handle_ghost_collisions both_hits_env).running = true := by
  have hf : fatal_hit both_hits_env.pacman_x both_hits_env.pacman_y both_hits_env.ghost1 := by
    refine ⟨by norm_num [both_hits_env, base_ghost, dist_sq, COLLISION_DISTANCE],
      by decide, by decide, by decide⟩
  have hr := resolve_one_ghost_fatal both_hits_env.pacman_x both_hits_env.pacman_y
    both_hits_env.ghost1 both_hits_env.score hf
  refine ⟨hf, by simp [handle_ghost_collisions, hr], ?_⟩
  have : (handle_ghost_collisions both_hits_env).running = both_hits_env.running := by
    simp [handle_ghost_collisions, hr]
  rw [this]
  rfl

/-- C2 (amended): a fatal hit on either ghost makes the mode GAME_OVER and
tears the session down (`game_initialized` becomes false) on that tick, but
collision resolution never modifies the `running` flag (it is only the
main-loop condition); separately, whenever `running` is false the derived
game mode is GAME_OVER. -/
theorem C2_fatal_collision_game_over (s : CollisionEnv) :
    (handle_ghost_collisions s).running = s.running ∧
    ((fatal_hit s.pacman_x s.pacman_y s.ghost1 ∨ fatal_hit s.pacman_x s.pacman_y s.ghost2) →
      (handle_ghost_collisions s).mode = GameMode.GAME_OVER ∧
      (handle_ghost_collisions s).game_initialized = false) ∧
    (∀ (collected : Bool) (g1 g2 : Ghost),
      determine_current_game_mode false collected g1 g2 = GameMode.GAME_OVER) := by
  refine ⟨?_, ?_, fun collected g1 g2 => rfl⟩
  · unfold handle_ghost_collisions
    dsimp only
    split
    · rfl
    · split <;> rfl
  · intro h
    by_cases hf1 : fatal_hit s.pacman_x s.pacman_y s.ghost1
    · have hr1 := resolve_one_ghost_fatal s.pacman_x s.pacman_y s.ghost1 s.score hf1
      simp [handle_ghost_collisions, hr1]
    · have hf2 : fatal_hit s.pacman_x s.pacman_y s.ghost2 := h.resolve_left hf1
      by_cases h1 : scared_hit s.pacman_x s.pacman_y s.ghost1
      · have hr1 := resolve_one_ghost_scared s.pacman_x s.pacman_y s.ghost1 s.score h1
        have hr2 := resolve_one_ghost_fatal s.pacman_x s.pacman_y s.ghost2 (s.score + 400) hf2
        simp [handle_ghost_collisions, hr1, hr2]
      · have hr1 := resolve_one_ghost_quiet s.pacman_x s.pacman_y s.ghost1 s.score h1 hf1
        have hr2 := resolve_one_ghost_fatal s.pacman_x s.pacman_y s.ghost2 s.score hf2
        simp [handle_ghost_collisions, hr1, hr2]

/-- C2 amended-claim witness: at the concrete fatal-collision state the mode
becomes GAME_OVER, the session is torn down, `running` is untouched, and a
false `running` flag derives GAME_OVER. -/
theorem C2_fatal_collision_game_over_witness :
    (handle_ghost_collisions both_hits_env).running = both_hits_env.running ∧
    (handle_ghost_collisions both_hits_env).mode = GameMode.GAME_OVER ∧
    (handle_ghost_collisions both_hits_env).game_initialized = false ∧
    determine_current_game_mode false false base_ghost base_ghost = GameMode.GAME_OVER := by
  have hf : fatal_hit both_hits_env.pacman_x both_hits_env.pacman_y both_hits_env.ghost1 := by
    refine ⟨by norm_num [both_hits_env, base_ghost, dist_sq, COLLISION_DISTANCE],
      by decide, by decide, by decide⟩
  have h := C2_fatal_collision_game_over both_hits_env
  exact ⟨h.1, (h.2.1 (Or.inl hf)).1, (h.2.1 (Or.inl hf)).2, h.2.2 false base_ghost base_ghost⟩

/-- The desired direction of an entity points at a wall (a non-open cell)
adjacent to the entity's current grid cell. -/
def wall_ahead (m : Maze) (e : Entity) : Bool :=
  !(m.is_empty
      (get_next_cell e.desired_dir (truncToInt (e.y / CELL_SIZE))
        (truncToInt (e.x / CELL_SIZE))).1
      (get_next_cell e.desired_dir (truncToInt (e.y / CELL_SIZE))
        (truncToInt (e.x / CELL_SIZE))).2)

theorem align_to_grid_dir (e : Entity) (d : direction_t) (cx cy : ℚ) :
    (e.align_to_grid d cx cy).dir = e.dir := by
  cases d <;> rfl

theorem align_to_grid_desired (e : Entity) (d : direction_t) (cx cy : ℚ) :
    (e.align_to_grid d cx cy).desired_dir = e.desired_dir := by
  cases d <;> rfl

/-- The direction-change step never touches the buffered desired direction. -/
theorem attempt_direction_change_desired (e : Entity) (m : Maze) (row col : Int)
    (cx cy : ℚ) :
    (e.attempt_direction_change m row col cx cy).desired_dir = e.desired_dir := by
  unfold Entity.attempt_direction_change
  dsimp only
  split
  · exact align_to_grid_desired e e.desired_dir cx cy
  · rfl

/-- When the adjacent cell in the desired direction is a wall, the
direction-change step is a no-op. -/
theorem attempt_direction_change_of_wall (e : Entity) (m : Maze) (row col : Int)
    (cx cy : ℚ)
    (hwall : m.is_empty (get_next_cell e.desired_dir row col).1
        (get_next_cell e.desired_dir row col).2 = false) :
    e.attempt_direction_change m row col cx cy = e := by
  unfold Entity.attempt_direction_change
  rw [if_neg]
  simp [hwall]

theorem snap_to_grid_if_close_dir (e : Entity) (cx cy : ℚ) :
    (e.snap_to_grid_if_close cx cy).dir = e.dir := by
  unfold Entity.snap_to_grid_if_close
  dsimp only
  split <;> split <;> rfl

theorem snap_to_grid_if_close_desired (e : Entity) (cx cy : ℚ) :
    (e.snap_to_grid_if_close cx cy).desired_dir = e.desired_dir := by
  unfold Entity.snap_to_grid_if_close
  dsimp only
  split <;> split <;> rfl

/-- The movement step never touches the buffered desired direction. -/
theorem attempt_movement_desired (e : Entity) (m : Maze) (cx cy speed dt : ℚ) :
    (e.attempt_movement m cx cy speed dt).desired_dir = e.desired_dir := by
  unfold Entity.attempt_movement
  split
  · rfl
  · dsimp only
    split
    · exact snap_to_grid_if_close_desired _ cx cy
    · rfl

/-- After the movement step the current direction is either unchanged or
forced to `DIR_NONE` (when blocked). -/
theorem attempt_movement_dir (e : Entity) (m : Maze) (cx cy speed dt : ℚ) :
    (e.attempt_movement m cx cy speed dt).dir = e.dir ∨
      (e.attempt_movement m cx cy speed dt).dir = DIR_NONE := by
  unfold Entity.attempt_movement
  split
  · exact Or.inl rfl
  · dsimp only
    split
    · exact Or.inl (snap_to_grid_if_close_dir _ cx cy)
    · exact Or.inr rfl

/-- A full entity update never touches the buffered desired direction. -/
theorem update_desired (e : Entity) (m : Maze) (speed dt : ℚ) :
    (e.update m speed dt).desired_dir = e.desired_dir := by
  unfold Entity.update Entity.move_in_direction
  dsimp only
  rw [attempt_movement_desired]
  split
  · exact attempt_direction_change_desired e m _ _ _ _
  · rfl

/-- Single-tick no-commit: if the desired direction points into a wall, one
update cannot make it the current direction (the current direction stays or
becomes `DIR_NONE`). -/
theorem update_wall_no_commit (m : Maze) (e : Entity) (speed dt : ℚ)
    (hd : e.desired_dir ≠ DIR_NONE) (hne : e.dir ≠ e.desired_dir)
    (hwall : wall_ahead m e = true) :
    (e.update m speed dt).dir ≠ e.desired_dir := by
  have hwall' : m.is_empty
      (get_next_cell e.desired_dir (truncToInt (e.y / CELL_SIZE))
        (truncToInt (e.x / CELL_SIZE))).1
      (get_next_cell e.desired_dir (truncToInt (e.y / CELL_SIZE))
        (truncToInt (e.x / CELL_SIZE))).2 = false := by
    simpa [wall_ahead] using hwall
  unfold Entity.update Entity.move_in_direction
  dsimp only
  rw [if_pos ⟨hd, Ne.symm hne⟩,
    attempt_direction_change_of_wall e m _ _ _ _ hwall']
  rcases attempt_movement_dir e m (get_cell_center_x (truncToInt (e.x / CELL_SIZE)))
      (get_cell_center_y (truncToInt (e.y / CELL_SIZE))) speed dt with h | h <;> rw [h]
  · exact hne
  · exact fun hh => hd hh.symm

/-- C3 counterexample to the claim as stated: in the fallback maze an entity
at (60, 60) moving LEFT with desired direction UP — which points into the
wall cell (0, 1) at both ticks — has its current direction changed (to
`DIR_NONE`) by the second update, because blocked movement also rewrites the
current direction. -/
theorem C3_counterexample :
    wall_ahead fallback_maze ⟨60, 60, DIR_LEFT, DIR_UP, 1⟩ = true ∧
    wall_ahead fallback_maze
      (Entity.update ⟨60, 60, DIR_LEFT, DIR_UP, 1⟩ fallback_maze 120 (1 / 60)) = true ∧
    (Entity.update (Entity.update ⟨60, 60, DIR_LEFT, DIR_UP, 1⟩ fallback_maze 120 (1 / 60))
        fallback_maze 120 (1 / 60)).dir ≠ DIR_LEFT := by
  have h1 : Entity.update ⟨60, 60, DIR_LEFT, DIR_UP, 1⟩ fallback_maze 120 (1 / 60)
      = ⟨58, 60, DIR_LEFT, DIR_UP, 1⟩ := by
    norm_num [Entity.update, Entity.move_in_direction, Entity.attempt_direction_change,
      Entity.attempt_movement, Entity.is_aligned_for_direction, Entity.align_to_grid,
      Entity.get_next_position, Entity.snap_to_grid_if_close, get_next_cell, truncToInt,
      get_cell_center_x, get_cell_center_y, Maze.can_move_to, Maze.is_empty_or_tunnel,
      Maze.is_empty, Maze.is_valid_position, Maze.cellAt, CELL_SIZE, ALIGNMENT_TOLERANCE,
      PACMAN_RADIUS_OFFSET, MAZE_ROWS, MAZE_COLS, fallback_maze]
    split_ifs <;> simp_all
  have h2 : Entity.update ⟨58, 60, DIR_LEFT, DIR_UP, 1⟩ fallback_maze 120 (1 / 60)
      = ⟨58, 60, DIR_NONE, DIR_UP, 1⟩ := by
    norm_num [Entity.update, Entity.move_in_direction, Entity.attempt_direction_change,
      Entity.attempt_movement, Entity.is_aligned_for_direction, Entity.align_to_grid,
      Entity.get_next_position, Entity.snap_to_grid_if_close, get_next_cell, truncToInt,
      get_cell_center_x, get_cell_center_y, Maze.can_move_to, Maze.is_empty_or_tunnel,
      Maze.is_empty, Maze.is_valid_position, Maze.cellAt, CELL_SIZE, ALIGNMENT_TOLERANCE,
      PACMAN_RADIUS_OFFSET, MAZE_ROWS, MAZE_COLS, fallback_maze]
  refine ⟨?_, ?_, ?_⟩
  · norm_num [wall_ahead, get_next_cell, truncToInt, CELL_SIZE, Maze.is_empty,
      Maze.is_valid_position, Maze.cellAt, MAZE_ROWS, MAZE_COLS, fallback_maze]
  · rw [h1]
    norm_num [wall_ahead, get_next_cell, truncToInt, CELL_SIZE, Maze.is_empty,
      Maze.is_valid_position, Maze.cellAt, MAZE_ROWS, MAZE_COLS, fallback_maze]
  · rw [h1, h2]
    decide

/-- C3 (amended): (1) the direction-change step commits the desired
direction exactly when the entity is aligned within the 4 px tolerance on
the perpendicular axis AND the adjacent cell in that direction is open, and
on commit it snaps the perpendicular coordinate to the cell centre; (2) for
an entity whose desired direction points into a wall at every tick, repeated
updates never make the desired direction current — though blocked movement
may still force the current direction to `DIR_NONE`. -/
theorem C3_direction_commit_rule (m : Maze) (speed dt : ℚ) :
    (∀ (e : Entity) (row col : Int),
      (¬(e.is_aligned_for_direction e.desired_dir (get_cell_center_x col)
            (get_cell_center_y row) = true ∧
          m.is_empty (get_next_cell e.desired_dir row col).1
            (get_next_cell e.desired_dir row col).2 = true) →
        e.attempt_direction_change m row col (get_cell_center_x col)
          (get_cell_center_y row) = e) ∧
      (e.is_aligned_for_direction e.desired_dir (get_cell_center_x col)
          (get_cell_center_y row) = true →
        m.is_empty (get_next_cell e.desired_dir row col).1
          (get_next_cell e.desired_dir row col).2 = true →
        (e.attempt_direction_change m row col (get_cell_center_x col)
            (get_cell_center_y row)).dir = e.desired_dir ∧
        ((e.desired_dir = DIR_LEFT ∨ e.desired_dir = DIR_RIGHT) →
          (e.attempt_direction_change m row col (get_cell_center_x col)
              (get_cell_center_y row)).y = get_cell_center_y row) ∧
        ((e.desired_dir = DIR_UP ∨ e.desired_dir = DIR_DOWN) →
          (e.attempt_direction_change m row col (get_cell_center_x col)
              (get_cell_center_y row)).x = get_cell_center_x col))) ∧
    (∀ (e : Entity) (n : ℕ),
      e.desired_dir ≠ DIR_NONE → e.dir ≠ e.desired_dir →
      (∀ k : ℕ, wall_ahead m ((fun x => Entity.update x m speed dt)^[k] e) = true) →
      ((fun x => Entity.update x m speed dt)^[n] e).dir ≠ e.desired_dir) := by
  constructor
  · intro e row col
    constructor
    · intro h
      unfold Entity.attempt_direction_change
      rw [if_neg]
      simpa [Bool.and_eq_true] using h
    · intro ha ho
      unfold Entity.attempt_direction_change
      rw [if_pos (by simp [Bool.and_eq_true, ha, ho])]
      refine ⟨rfl, ?_, ?_⟩
      · rintro (h | h) <;> rw [h] <;> simp [Entity.align_to_grid]
      · rintro (h | h) <;> rw [h] <;> simp [Entity.align_to_grid]
  · intro e n hd hne hwall
    have hdes : ∀ k : ℕ,
        ((fun x => Entity.update x m speed dt)^[k] e).desired_dir = e.desired_dir := by
      intro k
      induction k with
      | zero => rfl
      | succ k ih =>
        rw [Function.iterate_succ_apply']
        rw [update_desired, ih]
    induction n with
    | zero => exact hne
    | succ n ih =>
      rw [Function.iterate_succ_apply']
      have h := update_wall_no_commit m ((fun x => Entity.update x m speed dt)^[n] e) speed dt
        (by rw [hdes n]; exact hd) (by rw [hdes n]; exact ih) (hwall n)
      rw [hdes n] at h
      exact h

/-- C3 amended-claim witness: a stationary entity at the centre of cell
(1, 1) of the fallback maze whose desired direction UP points into the wall
cell (0, 1) keeps `DIR_NONE` as its current direction over 5 updates. -/
theorem C3_direction_commit_rule_witness :
    ((fun x => Entity.update x fallback_maze 120 (1 / 60))^[5]
        ⟨60, 60, DIR_NONE, DIR_UP, 1⟩).dir ≠ DIR_UP := by
  have hfix : Entity.update ⟨60, 60, DIR_NONE, DIR_UP, 1⟩ fallback_maze 120 (1 / 60)
      = ⟨60, 60, DIR_NONE, DIR_UP, 1⟩ := by
    norm_num [Entity.update, Entity.move_in_direction, Entity.attempt_direction_change,
      Entity.attempt_movement, Entity.is_aligned_for_direction, Entity.align_to_grid,
      Entity.get_next_position, Entity.snap_to_grid_if_close, get_next_cell, truncToInt,
      get_cell_center_x, get_cell_center_y, Maze.can_move_to, Maze.is_empty_or_tunnel,
      Maze.is_empty, Maze.is_valid_position, Maze.cellAt, CELL_SIZE, ALIGNMENT_TOLERANCE,
      PACMAN_RADIUS_OFFSET, MAZE_ROWS, MAZE_COLS, fallback_maze]
  refine (C3_direction_commit_rule fallback_maze 120 (1 / 60)).2
    ⟨60, 60, DIR_NONE, DIR_UP, 1⟩ 5 (by decide) (by decide) ?_
  intro k
  rw [Function.iterate_fixed hfix]
  norm_num [wall_ahead, get_next_cell, truncToInt, CELL_SIZE, Maze.is_empty,
    Maze.is_valid_position, Maze.cellAt, MAZE_ROWS, MAZE_COLS, fallback_maze]

/-- Unfolding step of the collection loop. -/
theorem collect_pass_cons (px py : ℚ) (t : Token) (ts : List Token) :
    collect_pass px py (t :: ts)
      = if token_collectable px py t = true
        then ({ t with collected := true } :: (collect_pass px py ts).1,
              (collect_pass px py ts).2 + 1)
        else (t :: (collect_pass px py ts).1, (collect_pass px py ts).2) := rfl

theorem collect_pass_length (px py : ℚ) (ts : List Token) :
    (collect_pass px py ts).1.length = ts.length := by
  induction ts with
  | nil => rfl
  | cons t ts ih =>
    rw [collect_pass_cons]
    split_ifs <;> simp [ih]

theorem collect_pass_monotone (px py : ℚ) (ts : List Token) :
    List.Forall₂
      (fun t t' => t.row = t'.row ∧ t.col = t'.col ∧ (t.collected = true → t'.collected = true))
      ts (collect_pass px py ts).1 := by
  induction ts with
  | nil => exact List.Forall₂.nil
  | cons t ts ih =>
    rw [collect_pass_cons]
    split_ifs
    · exact List.Forall₂.cons ⟨rfl, rfl, fun _ => rfl⟩ ih
    · exact List.Forall₂.cons ⟨rfl, rfl, fun h => h⟩ ih

theorem collect_pass_count (px py : ℚ) (ts : List Token) :
    ((collect_pass px py ts).1.filter fun t => t.collected).length
      = (ts.filter fun t => t.collected).length + (collect_pass px py ts).2 := by
  induction ts with
  | nil => rfl
  | cons t ts ih =>
    rw [collect_pass_cons]
    split_ifs with h
    · have hnc : t.collected = false := by
        have := (Bool.and_eq_true _ _).mp h
        simpa using this.1
      simp [List.filter_cons, hnc, ih]
      omega
    · by_cases hc : t.collected = true <;> simp [List.filter_cons, hc, ih] <;> omega

theorem collect_pass_idem (px py : ℚ) (ts : List Token) :
    collect_pass px py (collect_pass px py ts).1 = ((collect_pass px py ts).1, 0) := by
  induction ts with
  | nil => rfl
  | cons t ts ih =>
    rw [collect_pass_cons]
    split_ifs with h
    · dsimp only
      rw [collect_pass_cons, if_neg (by simp [token_collectable]), ih]
    · dsimp only
      rw [collect_pass_cons, if_neg h, ih]

/-- C7: pellet collection is monotonic and idempotent, and the collected
count can never exceed the fixed total: (i) a collection check preserves
each pellet's identity and only flips `collected` from false to true;
(ii) an immediately repeated check at the same position collects nothing —
the state (score and counters included) is unchanged and it reports no
collection; (iii) a check never changes `total_tokens`; (iv) the counter
invariant `wf` holds initially and is preserved by `add_token` (level
initialization) and by collection checks, and under it
`tokens_collected ≤ total_tokens`. -/
theorem C7_pellet_collection (gs : GameState) (px py : ℚ) (hwf : gs.wf) :
    List.Forall₂
      (fun t t' => t.row = t'.row ∧ t.col = t'.col ∧ (t.collected = true → t'.collected = true))
      gs.tokens (gs.check_token_collection px py).1.tokens ∧
    (gs.check_token_collection px py).1.check_token_collection px py
      = ((gs.check_token_collection px py).1, false) ∧
    (gs.check_token_collection px py).1.total_tokens = gs.total_tokens ∧
    GameState.init.wf ∧
    (∀ row col : Int, (gs.add_token row col).wf) ∧
    (gs.check_token_collection px py).1.wf ∧
    gs.tokens_collected ≤ gs.total_tokens ∧
    (gs.check_token_collection px py).1.tokens_collected
      ≤ (gs.check_token_collection px py).1.total_tokens := by
  obtain ⟨h1, h2⟩ := hwf
  have hwf' : (gs.check_token_collection px py).1.wf := by
    unfold GameState.wf GameState.check_token_collection
    dsimp only
    constructor
    · rw [collect_pass_count px py gs.tokens, h1]
      push_cast
      ring
    · rw [collect_pass_length px py gs.tokens, h2]
  refine ⟨collect_pass_monotone px py gs.tokens, ?_, rfl, ⟨rfl, rfl⟩, ?_, hwf', ?_, ?_⟩
  · unfold GameState.check_token_collection
    dsimp only
    rw [collect_pass_idem px py gs.tokens]
    simp
  · intro row col
    constructor
    · simp [GameState.add_token, List.filter_append, h1]
    · simp [GameState.add_token, h2]
  · rw [h1, h2]
    exact_mod_cast List.length_filter_le _ gs.tokens
  · rw [hwf'.1, hwf'.2]
    exact_mod_cast List.length_filter_le _ (gs.check_token_collection px py).1.tokens

/-- A one-pellet state after level initialization: a pellet at cell (3, 3). -/
def one_token_state : GameState := GameState.init.add_token 3 3

/-- C7 witness: with the player at the cell-(3, 3) centre (140, 140), the
first check collects the pellet and a repeated check changes nothing; the
collected count stays within the total. -/
theorem C7_pellet_collection_witness :
    (one_token_state.check_token_collection 140 140).1.check_token_collection 140 140
      = ((one_token_state.check_token_collection 140 140).1, false) ∧
    (one_token_state.check_token_collection 140 140).1.total_tokens
      = one_token_state.total_tokens ∧
    one_token_state.tokens_collected ≤ one_token_state.total_tokens ∧
    (one_token_state.check_token_collection 140 140).1.tokens_collected
      ≤ (one_token_state.check_token_collection 140 140).1.total_tokens := by
  have h := C7_pellet_collection one_token_state 140 140 (by decide)
  exact ⟨h.2.1, h.2.2.1, h.2.2.2.2.2.2.1, h.2.2.2.2.2.2.2⟩

end PacMan
